import Mathlib

/-!
# PRNU pipeline, shallow embedding

A verification development for a small PRNU (photo-response non-uniformity)
forensics code base consisting of three Python scripts:

* `full_prnu_pipeline.py` — residual extraction, a lenient 10-file reference
  gate, fingerprint construction, comparison to a fingerprint;
* `prnu_compare.py` — residual extraction and direct file-vs-file normalized
  cross-correlation;
* `PRNU for No Camera case.py` — the strict variant with
  `validate_references` (15-file minimum, extension check, SHA256
  chain-of-custody logging) feeding `build_reference_fingerprint`.

Modelling conventions:

* 2-D numeric arrays (`numpy` float32 arrays) are `Grid`s: a height, a width
  and a total data function `ℕ → ℕ → ℝ`.  Pixel arithmetic is modelled over
  the exact reals; float rounding is abstracted away, but *non-finite* float
  results (NaN / ±Inf, which arise in this program exclusively from dividing
  by a zero standard deviation) are modelled explicitly by the scalar type
  `FV` (`fin x` for a finite value, `nonfin` for NaN or ±Inf).
* RAW decoding (`rawpy`) is external: a reference file is a `RefFile`
  carrying its path, the hex digest its bytes hash to, and `some raster`
  when decoding succeeds or `none` when `rawpy` raises (the only way
  `extract_residual` can raise, since the division itself never raises in
  numpy — it emits non-finite values).
* Python exceptions of the scripts are the constructors of `PyError`;
  observable stdout records (hash logging, per-file processed/skipped
  notices) are `Event`s, so that ordering claims about side effects can be
  stated on the emitted trace.
-/

namespace PRNU

/-- A float scalar: either a finite real value or a non-finite float
(NaN or ±Inf).  In this program non-finite values enter only through
division by zero and then propagate. -/
inductive FV where
  | fin (x : ℝ)
  | nonfin

namespace FV

/-- Float division.  Dividing a finite value by (finite) zero yields a
non-finite float (±Inf for a nonzero numerator, NaN for `0/0`); any
operation with the non-finite values reached in this program yields a
non-finite result (the divisors involved are NaN when non-finite, and
`x / NaN = NaN`). -/
noncomputable def div : FV → FV → FV
  | fin a, fin b => if b = 0 then nonfin else fin (a / b)
  | _, _ => nonfin

/-- Float addition; `NaN + x = NaN`, and the only non-finite values reached
by the sums of this program are NaN. -/
noncomputable def add : FV → FV → FV
  | fin a, fin b => fin (a + b)
  | _, _ => nonfin

/-- Sum of a list of float scalars (the `numpy` pixelwise sum underlying
`np.mean(residuals, axis=0)`). -/
noncomputable def sumL (l : List FV) : FV := l.foldr add (fin 0)

/-- Is the scalar a finite value? -/
def isFin : FV → Bool
  | fin _ => true
  | nonfin => false

/-- The real value of a finite scalar (junk value `0` for non-finite). -/
noncomputable def toReal : FV → ℝ
  | fin x => x
  | nonfin => 0

end FV

/-- A 2-D float array (`numpy` array of shape `(h, w)`): the data function
is total, and only indices `i < h`, `j < w` are meaningful. -/
@[ext]
structure Grid where
  h : ℕ
  w : ℕ
  data : ℕ → ℕ → ℝ

namespace Grid

/-- `np.sum` over all entries. -/
noncomputable def total (g : Grid) : ℝ :=
  ∑ i ∈ Finset.range g.h, ∑ j ∈ Finset.range g.w, g.data i j

/-- `np.mean` over all entries. -/
noncomputable def mean (g : Grid) : ℝ := g.total / (g.h * g.w)

/-- Population variance of all entries (what `np.std(...)**2` computes:
`ddof = 0`). -/
noncomputable def variance (g : Grid) : ℝ :=
  (∑ i ∈ Finset.range g.h, ∑ j ∈ Finset.range g.w, (g.data i j - g.mean) ^ 2)
    / (g.h * g.w)

/-- `np.std`: the square root of the population variance. -/
noncomputable def std (g : Grid) : ℝ := Real.sqrt g.variance

end Grid

/-- A 2-D float array that may contain non-finite entries. -/
structure GridF where
  h : ℕ
  w : ℕ
  data : ℕ → ℕ → FV

namespace GridF

/-- Every meaningful entry is a finite value. -/
def AllFinite (g : GridF) : Prop :=
  ∀ i < g.h, ∀ j < g.w, (g.data i j).isFin = true

/-- Boolean check that every meaningful entry is finite (`np.isfinite(...).all()`). -/
def allFiniteB (g : GridF) : Bool :=
  (List.range g.h).all fun i => (List.range g.w).all fun j => (g.data i j).isFin

/-- Forget non-finiteness, mapping non-finite entries to the junk value 0. -/
noncomputable def toGrid (g : GridF) : Grid := ⟨g.h, g.w, fun i j => (g.data i j).toReal⟩

/-- `np.std` on a possibly non-finite array: NaN (non-finite) as soon as any
entry is non-finite, otherwise the finite standard deviation. -/
noncomputable def stdFV (g : GridF) : FV :=
  if g.allFiniteB then .fin g.toGrid.std else .nonfin

end GridF

/-- A decoded RAW image: `raw.postprocess(...)` output, an RGB raster.
(RAW decoding itself is the external `rawpy` collaborator.) -/
structure Raster where
  h : ℕ
  w : ℕ
  r : ℕ → ℕ → ℝ
  g : ℕ → ℕ → ℝ
  b : ℕ → ℕ → ℝ

/-- `cv2.cvtColor(rgb, cv2.COLOR_RGB2GRAY).astype(np.float32)`: the standard
luminance reduction Y = 0.299 R + 0.587 G + 0.114 B (OpenCV's fixed-point
rounding of the integer path is abstracted to the exact weights). -/
noncomputable def toGray (x : Raster) : Grid :=
  ⟨x.h, x.w, fun i j => 0.299 * x.r i j + 0.587 * x.g i j + 0.114 * x.b i j⟩

/-- One step of OpenCV border reflection for `BORDER_REFLECT_101` (the
default border of `cv2.GaussianBlur`): reflect about each edge without
repeating the edge pixel. -/
def reflectOnce (n p : ℤ) : ℤ :=
  if p < 0 then -p else if n ≤ p then 2 * n - 2 - p else p

/-- OpenCV `borderInterpolate(p, n, BORDER_REFLECT_101)`: a length-1 axis
maps everything to 0; otherwise reflection is iterated until the index is in
range (three steps suffice for the offsets of a 5×5 kernel). -/
def reflect101 (n : ℕ) (p : ℤ) : ℕ :=
  if n = 1 then 0 else (reflectOnce n (reflectOnce n (reflectOnce n p))).toNat

/-- The fixed 5-tap Gaussian kernel OpenCV uses for
`cv2.GaussianBlur(gray, (5,5), 0)` (ksize 5, sigma 0):
`[1/16, 4/16, 6/16, 4/16, 1/16]`. -/
noncomputable def gk : ℕ → ℝ := fun t =>
  if t = 0 ∨ t = 4 then 1 / 16 else if t = 1 ∨ t = 3 then 4 / 16 else 6 / 16

/-- `cv2.GaussianBlur(g, (5,5), 0)`: separable 5×5 convolution with kernel
`gk` in each axis and `BORDER_REFLECT_101` borders. -/
noncomputable def gaussianBlur5 (g : Grid) : Grid :=
  ⟨g.h, g.w, fun i j =>
    ∑ di ∈ Finset.range 5, ∑ dj ∈ Finset.range 5,
      gk di * gk dj *
        g.data (reflect101 g.h ((i : ℤ) + (di : ℤ) - 2))
               (reflect101 g.w ((j : ℤ) + (dj : ℤ) - 2))⟩

/-- `residual = gray - denoised` (`full_prnu_pipeline.py` line 39): the raw,
un-normalized residual of a grayscale grid. -/
noncomputable def rawResidual (g : Grid) : Grid :=
  ⟨g.h, g.w, fun i j => g.data i j - (gaussianBlur5 g).data i j⟩

/-- `extract_residual` (`full_prnu_pipeline.py` lines 33–41, identical in
`PRNU for No Camera case.py` lines 33–41), after the external `rawpy`
decode: grayscale, 5×5 Gaussian blur, subtract, then `residual /= np.std(residual)`.
The division is float division: when the standard deviation is zero every
entry of the returned array is non-finite, and no exception is raised. -/
noncomputable def extract_residual (x : Raster) : GridF :=
  let gray := toGray x
  let res := rawResidual gray
  ⟨gray.h, gray.w, fun i j => FV.div (.fin (res.data i j)) (.fin res.std)⟩

/-- `extract_noise_residual` (`prnu_compare.py` lines 7–21) is line-for-line
the same computation as `extract_residual`. -/
noncomputable def extract_noise_residual (x : Raster) : GridF := extract_residual x

/-! ## Files, errors and observable events -/

/-- A file path, as a list of characters (Python string). -/
abbrev Path := List Char

/-- `os.path.basename`: the part of the path after the last `/`. -/
def basename (p : Path) : Path := (p.reverse.takeWhile (· != '/')).reverse

/-- The suffix `.cr2`, lower case. -/
def cr2Lower : Path := ['.', 'c', 'r', '2']

/-- The suffix `.CR2`, as in the glob pattern `"*.CR2"`. -/
def cr2Upper : Path := ['.', 'C', 'R', '2']

/-- `f.lower().endswith(".cr2")` (`PRNU for No Camera case.py` line 50). -/
def isCR2ci (f : Path) : Bool := cr2Lower.isSuffixOf (f.map Char.toLower)

/-- A candidate reference (or test) file: its path, the hex digest that
`hashlib.sha256` computes from its bytes (hashing itself is external), and
the raster the external `rawpy` decode yields — `none` when `rawpy.imread`
or `postprocess` raises, which is the only exception source inside
`extract_residual`. -/
structure RefFile where
  path : Path
  digest : String
  raster : Option Raster

/-- The exceptions the scripts can raise. -/
inductive PyError where
  | insufficientRefs15
  | insufficientRefs10
  | invalidExtension (f : Path)
  | emptyMinSequence
  deriving DecidableEq

/-- The message attached to each exception in the source. -/
def PyError.message : PyError → String
  | .insufficientRefs15 => "Insufficient reference files. Need at least 15 CR2 images."
  | .insufficientRefs10 => "Need at least 10 reference CR2 files for reliable fingerprint"
  | .invalidExtension f => "Invalid file extension (not CR2): " ++ String.mk f
  | .emptyMinSequence => "min() arg is an empty sequence"

/-- Observable stdout records emitted while processing reference files. -/
inductive Event where
  | hashLog (base : Path) (digest : String)
  | processed (f : Path)
  | skipped (f : Path)
  deriving DecidableEq

/-- The chain-of-custody record printed for one file
(`"  {os.path.basename(f)} -> SHA256: {h}"`). -/
def hashEventOf (f : RefFile) : Event := .hashLog (basename f.path) f.digest

/-! ## Reference validation and fingerprint construction -/

/-- `validate_references` (`PRNU for No Camera case.py` lines 43–59).
Rule 1: at least 15 files, else raise; Rule 2: raise on the first file whose
lower-cased path does not end in `.cr2`; Rule 3: print a SHA256 record for
every file.  On success the function returns the emitted hash records (the
Python function returns `True`; the records are its observable effect). -/
def validate_references (refFiles : List RefFile) : Except PyError (List Event) :=
  if refFiles.length < 15 then .error .insufficientRefs15
  else
    match refFiles.find? (fun f => !isCR2ci f.path) with
    | some f => .error (.invalidExtension f.path)
    | none => .ok (refFiles.map hashEventOf)

/-- `glob.glob(os.path.join(ref_folder, "*.CR2"))`: case-sensitive pattern
match on the `.CR2` suffix over the folder's files. -/
def glob (folder : List RefFile) : List RefFile :=
  folder.filter fun f => cr2Upper.isSuffixOf f.path

/-- Per-file extraction attempt inside the `try`/`except` loop: succeeds
with a residual exactly when the external decode succeeds. -/
noncomputable def extractFromFile (f : RefFile) : Option GridF :=
  f.raster.map extract_residual

/-- The per-file processed/skipped notice of the extraction loop. -/
noncomputable def loopEvent (f : RefFile) : Event :=
  if (extractFromFile f).isSome then .processed f.path else .skipped f.path

/-- `min` over a nonempty list of naturals (Python's `min(...)`; the junk
value 0 on the empty list stands in for the branch where Python's `min`
raises — the callers below surface that branch as `emptyMinSequence`). -/
def minOf (l : List ℕ) : ℕ :=
  match l with
  | [] => 0
  | x :: xs => xs.foldl Nat.min x

/-- The crop-mean-renormalize aggregation shared by both build functions
(`full_prnu_pipeline.py` lines 57–65, `PRNU for No Camera case.py` lines
74–81): crop every residual to the minimum height/width, average
element-wise (`np.mean(residuals, axis=0)`), then divide by the average's
own standard deviation. -/
noncomputable def fingerprintOf (residuals : List GridF) : GridF :=
  let mh := minOf (residuals.map GridF.h)
  let mw := minOf (residuals.map GridF.w)
  let meanG : GridF :=
    ⟨mh, mw, fun i j =>
      FV.div (FV.sumL (residuals.map fun r => r.data i j))
        (.fin (residuals.length : ℝ))⟩
  ⟨mh, mw, fun i j => FV.div (meanG.data i j) meanG.stdFV⟩

/-- `build_reference_fingerprint` (`PRNU for No Camera case.py` lines
61–81): glob the folder for `*.CR2`, run `validate_references`, then
extract residuals with per-file skip on failure, and aggregate.  The result
pairs the emitted stdout trace with either the fingerprint or the raised
exception; when no residual survives, Python's `min` over an empty
generator raises `ValueError("min() arg is an empty sequence")`, modelled
as `emptyMinSequence`. -/
noncomputable def build_reference_fingerprint (folder : List RefFile) :
    List Event × Except PyError GridF :=
  let refFiles := glob folder
  match validate_references refFiles with
  | .error e => ([], .error e)
  | .ok hashEvents =>
    let residuals := refFiles.filterMap extractFromFile
    let loopEvents := refFiles.map loopEvent
    if residuals.isEmpty then (hashEvents ++ loopEvents, .error .emptyMinSequence)
    else (hashEvents ++ loopEvents, .ok (fingerprintOf residuals))

/-- `build_fingerprint` (`full_prnu_pipeline.py` lines 43–65), the lenient
camera-available variant: glob the folder, raise unless at least 10 files
were found, then the same skip loop and aggregation, with no extension
check and no hash logging. -/
noncomputable def build_fingerprint (folder : List RefFile) :
    List Event × Except PyError GridF :=
  let refFiles := glob folder
  if refFiles.length < 10 then ([], .error .insufficientRefs10)
  else
    let residuals := refFiles.filterMap extractFromFile
    let loopEvents := refFiles.map loopEvent
    if residuals.isEmpty then (loopEvents, .error .emptyMinSequence)
    else (loopEvents, .ok (fingerprintOf residuals))

/-! ## Correlation -/

/-- `np.sum(a * b)` for two equal-shaped grids, summed over `a`'s shape. -/
noncomputable def sumMul (a b : Grid) : ℝ :=
  ∑ i ∈ Finset.range a.h, ∑ j ∈ Finset.range a.w, a.data i j * b.data i j

/-- `np.sum(a ** 2)`, over `a`'s own shape. -/
noncomputable def sumSq (a : Grid) : ℝ :=
  ∑ i ∈ Finset.range a.h, ∑ j ∈ Finset.range a.w, (a.data i j) ^ 2

/-- The normalized cross-correlation of `compare_prnu` (`prnu_compare.py`
line 27) and `compare_to_fingerprint`:
`np.sum(a*b) / (np.sqrt(np.sum(a**2)) * np.sqrt(np.sum(b**2)))`. -/
noncomputable def ncc (a b : Grid) : ℝ :=
  sumMul a b / (Real.sqrt (sumSq a) * Real.sqrt (sumSq b))

/-- `g[:h, :w]`: numpy top-left slicing, which clamps instead of failing —
the result has shape `(min g.h h, min g.w w)`. -/
def Grid.crop (g : Grid) (h w : ℕ) : Grid := ⟨min g.h h, min g.w w, g.data⟩

/-- Can numpy broadcast two shapes together (`a * b` elementwise)?  Each
axis must agree or be 1 on one side. -/
def broadcastOK (a b : Grid) : Prop :=
  (a.h = b.h ∨ a.h = 1 ∨ b.h = 1) ∧ (a.w = b.w ∨ a.w = 1 ∨ b.w = 1)

instance (a b : Grid) : Decidable (broadcastOK a b) := by
  unfold broadcastOK; infer_instance

/-- `compare_to_fingerprint` (`full_prnu_pipeline.py` lines 67–73,
`PRNU for No Camera case.py` lines 83–90), on the already-extracted test
residual grid: crop the test residual to the fingerprint's shape, then
compute the normalized cross-correlation.  When the cropped test grid and
the fingerprint cannot be broadcast together, `res_test * fingerprint`
raises an unhandled numpy `ValueError`, modelled as `Except.error`. -/
noncomputable def compare_to_fingerprint (resTest fingerprint : Grid) :
    Except String ℝ :=
  let t := resTest.crop fingerprint.h fingerprint.w
  if broadcastOK t fingerprint then
    .ok (sumMul t fingerprint / (Real.sqrt (sumSq t) * Real.sqrt (sumSq fingerprint)))
  else
    .error "operands could not be broadcast together"

/-! ## The spec's configurable validator (§4.2 with the §9 configuration
struct), for the refinement part of the minimum-count claim. -/

/-- Modelled from the spec: §9's configuration struct
`{minimum_reference_count: int, require_extension_check: bool,
log_chain_of_custody: bool}` parameterizing one validator for all
variants. -/
structure ValidatorConfig where
  minimum_reference_count : ℕ
  require_extension_check : Bool
  log_chain_of_custody : Bool

/-- The possible outcomes of the spec's validator: a size violation, an
extension violation naming the offending file, or admission together with
the chain-of-custody records emitted. -/
inductive SpecOutcome where
  | tooSmall
  | badExtension (f : Path)
  | admitted (records : List Event)

/-- Modelled from the spec: §4.2's rules in order — (1) cardinality ≥ the
configured minimum; (2) if extension checking is required, every file's
extension matches `.cr2` case-insensitively, any mismatch failing the whole
set; (3) if chain-of-custody logging is enabled, a hash record is emitted
for every member. -/
def specValidator (cfg : ValidatorConfig) (refFiles : List RefFile) : SpecOutcome :=
  if refFiles.length < cfg.minimum_reference_count then .tooSmall
  else if cfg.require_extension_check then
    match refFiles.find? (fun f => !isCR2ci f.path) with
    | some f => .badExtension f.path
    | none =>
      .admitted (if cfg.log_chain_of_custody then refFiles.map hashEventOf else [])
  else .admitted (if cfg.log_chain_of_custody then refFiles.map hashEventOf else [])

/-- Read the strict validator's result as a spec outcome (the two
constructors `insufficientRefs10` and `emptyMinSequence` are never produced
by `validate_references`; they are mapped arbitrarily). -/
def strictOutcome : Except PyError (List Event) → SpecOutcome
  | .error .insufficientRefs15 => .tooSmall
  | .error (.invalidExtension f) => .badExtension f
  | .error _ => .tooSmall
  | .ok events => .admitted events

/-! ## Basic lemmas about grid statistics -/

namespace Grid

theorem variance_nonneg (g : Grid) : 0 ≤ g.variance := by
  unfold variance
  positivity

theorem std_nonneg (g : Grid) : 0 ≤ g.std := Real.sqrt_nonneg _

theorem std_ne_zero_iff (g : Grid) : g.std ≠ 0 ↔ g.variance ≠ 0 := by
  rw [std, Real.sqrt_ne_zero']
  exact ⟨fun h => ne_of_gt h, fun h => lt_of_le_of_ne (variance_nonneg g) (Ne.symm h)⟩

theorem total_scale (g : Grid) (s : ℝ) :
    Grid.total ⟨g.h, g.w, fun i j => g.data i j / s⟩ = g.total / s := by
  simp [Grid.total, Finset.sum_div]

theorem mean_scale (g : Grid) (s : ℝ) :
    Grid.mean ⟨g.h, g.w, fun i j => g.data i j / s⟩ = g.mean / s := by
  simp only [Grid.mean, total_scale]
  exact div_right_comm _ _ _

theorem variance_scale (g : Grid) (s : ℝ) :
    Grid.variance ⟨g.h, g.w, fun i j => g.data i j / s⟩ = g.variance / s ^ 2 := by
  simp only [Grid.variance, mean_scale, div_sub_div_same, div_pow, ← Finset.sum_div]
  exact div_right_comm _ _ _

theorem std_scale (g : Grid) (s : ℝ) (hs : 0 ≤ s) :
    Grid.std ⟨g.h, g.w, fun i j => g.data i j / s⟩ = g.std / s := by
  rw [Grid.std, variance_scale, Real.sqrt_div (variance_nonneg g), Real.sqrt_sq hs, Grid.std]

theorem variance_of_zero (g : Grid) (h0 : ∀ i j, g.data i j = 0) : g.variance = 0 := by
  have ht : g.total = 0 := by simp [Grid.total, h0]
  unfold variance mean
  simp [h0, ht]

end Grid

/-! ## Claim theorems -/

/-- C1.  For every decoded raster whose raw residual (luminance minus its
5×5 Gaussian-blurred version) has nonzero standard deviation, the residual
returned by `extract_residual` is entirely finite, has standard deviation
exactly 1, and has the same shape as the grayscale raster it came from. -/
theorem extract_residual_unit_std (x : Raster)
    (h : (rawResidual (toGray x)).std ≠ 0) :
    (extract_residual x).AllFinite ∧
    (extract_residual x).toGrid.std = 1 ∧
    (extract_residual x).h = (toGray x).h ∧
    (extract_residual x).w = (toGray x).w := by
  have hpos : 0 ≤ (rawResidual (toGray x)).std := Grid.std_nonneg _
  have hdata : ∀ i j, (extract_residual x).data i j =
      .fin ((rawResidual (toGray x)).data i j / (rawResidual (toGray x)).std) := by
    intro i j
    show FV.div (.fin ((rawResidual (toGray x)).data i j))
      (.fin (rawResidual (toGray x)).std) = _
    simp only [FV.div, if_neg h]
  refine ⟨?_, ?_, rfl, rfl⟩
  · intro i _ j _
    rw [hdata]
    rfl
  · have hgrid : (extract_residual x).toGrid =
        ⟨(rawResidual (toGray x)).h, (rawResidual (toGray x)).w,
          fun i j => (rawResidual (toGray x)).data i j / (rawResidual (toGray x)).std⟩ := by
      refine Grid.ext rfl rfl ?_
      funext i j
      show ((extract_residual x).data i j).toReal = _
      rw [hdata]
      rfl
    rw [hgrid, Grid.std_scale _ _ hpos, div_self h]

/-- A concrete 1×2 raster (equal RGB channels 16 and 0): its raw residual is
`(8, -8)`, of standard deviation 8. -/
noncomputable def wRaster : Raster :=
  ⟨1, 2, fun _ j => if j = 0 then 16 else 0,
         fun _ j => if j = 0 then 16 else 0,
         fun _ j => if j = 0 then 16 else 0⟩

/-- C1, witness: the hypothesis and conclusion of
`extract_residual_unit_std` hold at the concrete raster `wRaster`. -/
theorem extract_residual_unit_std_witness :
    (rawResidual (toGray wRaster)).std ≠ 0 ∧
    (extract_residual wRaster).toGrid.std = 1 := by
  have hvar : (rawResidual (toGray wRaster)).variance = 64 := by
    simp [Grid.variance, Grid.mean, Grid.total, rawResidual, toGray, gaussianBlur5,
      reflect101, reflectOnce, gk, wRaster, Finset.sum_range_succ]
    norm_num
  have hstd : (rawResidual (toGray wRaster)).std ≠ 0 := by
    rw [Grid.std_ne_zero_iff, hvar]
    norm_num
  exact ⟨hstd, (extract_residual_unit_std wRaster hstd).2.1⟩

/-- The 5-tap kernel sums to 1, so blurring preserves constants. -/
theorem gaussianBlur5_const (g : Grid) (c : ℝ) (hconst : ∀ i j, g.data i j = c) :
    ∀ i j, (gaussianBlur5 g).data i j = c := by
  intro i j
  simp only [gaussianBlur5, hconst]
  simp [gk, Finset.sum_range_succ]
  ring

/-- A uniform raster: every pixel of every channel is 100. -/
noncomputable def cRaster : Raster :=
  ⟨4, 4, fun _ _ => 100, fun _ _ => 100, fun _ _ => 100⟩

/-- C3.  On a uniform raster the raw residual is identically zero, its
standard deviation is exactly zero, and `extract_residual` — which raises
nothing — returns a grid whose entries are non-finite floats (`0/0` is
NaN): the division by a zero standard deviation is silently propagated as
an invalid grid instead of being surfaced as an extraction failure. -/
theorem extract_residual_nan_on_uniform :
    (rawResidual (toGray cRaster)).std = 0 ∧
    (extract_residual cRaster).data 0 0 = FV.nonfin := by
  have hgray : ∀ i j, (toGray cRaster).data i j = 100 := by
    intro i j
    show 0.299 * 100 + 0.587 * 100 + 0.114 * 100 = (100 : ℝ)
    norm_num
  have hzero : ∀ i j, (rawResidual (toGray cRaster)).data i j = 0 := by
    intro i j
    show (toGray cRaster).data i j - (gaussianBlur5 (toGray cRaster)).data i j = 0
    rw [hgray, gaussianBlur5_const _ 100 hgray]
    ring
  have hstd : (rawResidual (toGray cRaster)).std = 0 := by
    rw [Grid.std, Grid.variance_of_zero _ hzero, Real.sqrt_zero]
  refine ⟨hstd, ?_⟩
  show FV.div (.fin ((rawResidual (toGray cRaster)).data 0 0))
    (.fin (rawResidual (toGray cRaster)).std) = FV.nonfin
  rw [hstd]
  simp [FV.div]

/-! ## Validation and pipeline lemmas -/

/-- A path ending in `.CR2` (case-sensitively) also ends in `.cr2` after
lower-casing. -/
theorem isCR2ci_of_upper (p : Path) (h : cr2Upper.isSuffixOf p = true) :
    isCR2ci p = true := by
  unfold isCR2ci
  rw [List.isSuffixOf_iff_suffix] at h ⊢
  have hmap := h.map Char.toLower
  have he : cr2Upper.map Char.toLower = cr2Lower := by decide
  rwa [he] at hmap

/-- Every file the glob pattern `"*.CR2"` collects has a case-insensitively
matching extension. -/
theorem glob_all_cr2 (folder : List RefFile) :
    ∀ f ∈ glob folder, isCR2ci f.path = true := by
  intro f hf
  exact isCR2ci_of_upper _ (List.mem_filter.mp hf).2

/-- On a globbed folder of at least 15 files, `validate_references`
succeeds and returns the chain-of-custody records of every member. -/
theorem validate_references_glob (folder : List RefFile)
    (hlen : 15 ≤ (glob folder).length) :
    validate_references (glob folder) = .ok ((glob folder).map hashEventOf) := by
  unfold validate_references
  rw [if_neg (by omega)]
  have hnone : (glob folder).find? (fun f => !isCR2ci f.path) = none := by
    rw [List.find?_eq_none]
    intro x hx
    simp [glob_all_cr2 folder x hx]
  rw [hnone]

/-- Rule 1 fires on any set of fewer than 15 files. -/
theorem validate_references_small (fs : List RefFile) (h : fs.length < 15) :
    validate_references fs = .error .insufficientRefs15 := by
  unfold validate_references
  rw [if_pos h]

/-- C9.  Every reference set reaching `validate_references` through
`build_reference_fingerprint` was collected by the case-sensitive glob
`"*.CR2"`, so every member already matches the extension rule and the
validator's extension-mismatch branch is unreachable on that path: neither
`validate_references` on the globbed set nor `build_reference_fingerprint`
itself can produce an `invalidExtension` error. -/
theorem glob_makes_extension_branch_unreachable (folder : List RefFile) (p : Path) :
    (∀ f ∈ glob folder, isCR2ci f.path = true) ∧
    validate_references (glob folder) ≠ .error (.invalidExtension p) ∧
    (build_reference_fingerprint folder).2 ≠ .error (.invalidExtension p) := by
  refine ⟨glob_all_cr2 folder, ?_, ?_⟩
  · by_cases hlen : 15 ≤ (glob folder).length
    · rw [validate_references_glob folder hlen]
      simp
    · rw [validate_references_small _ (by omega)]
      simp
  · simp only [build_reference_fingerprint]
    by_cases hlen : 15 ≤ (glob folder).length
    · rw [validate_references_glob folder hlen]
      by_cases hres : ((glob folder).filterMap extractFromFile).isEmpty
      · simp [hres]
      · simp [hres]
    · rw [validate_references_small _ (by omega)]
      simp

/-- A reference file whose decode always fails (`rawpy` raises), with a
well-formed `.CR2` path. -/
def deadFile : RefFile := ⟨['a', '.', 'C', 'R', '2'], "d41d8c", none⟩

/-- Fifteen references that pass validation but all fail extraction. -/
def allFailFolder : List RefFile := List.replicate 15 deadFile

/-- C2.  When every reference file fails residual extraction,
`build_reference_fingerprint` reaches `min()` over an empty collection and
crashes with Python's `ValueError: min() arg is an empty sequence` — not
with a "no usable reference residuals" error. -/
theorem build_reference_fingerprint_empty_crash :
    (build_reference_fingerprint allFailFolder).2 = .error .emptyMinSequence ∧
    PyError.emptyMinSequence.message = "min() arg is an empty sequence" := by
  constructor
  · rfl
  · rfl

/-- C4.  The 15-file minimum is enforced on the globbed input set only and
is never re-checked after per-file skips: whenever the globbed set has at
least 15 files and at least one but arbitrarily few residuals survive
extraction, `build_reference_fingerprint` returns the fingerprint built
from the survivors, with no further minimum-count error. -/
theorem build_reference_fingerprint_no_recheck (folder : List RefFile)
    (hlen : 15 ≤ (glob folder).length)
    (hsome : (glob folder).filterMap extractFromFile ≠ [])
    (_hfew : ((glob folder).filterMap extractFromFile).length < 15) :
    (build_reference_fingerprint folder).2 =
      .ok (fingerprintOf ((glob folder).filterMap extractFromFile)) := by
  simp only [build_reference_fingerprint]
  rw [validate_references_glob folder hlen]
  have hne : ((glob folder).filterMap extractFromFile).isEmpty = false := by
    simpa [List.isEmpty_iff] using hsome
  simp [hne]

/-- A reference file that decodes successfully (to a trivial 1×1 raster). -/
noncomputable def liveFile : RefFile :=
  ⟨['b', '.', 'C', 'R', '2'], "aa11", some ⟨1, 1, fun _ _ => 0, fun _ _ => 0, fun _ _ => 0⟩⟩

/-- Fifteen references passing validation of which exactly one survives
extraction. -/
noncomputable def mixedFolder : List RefFile := liveFile :: List.replicate 14 deadFile

/-- C4, witness: on `mixedFolder` the globbed set has 15 files, exactly one
residual survives, and the build still returns the fingerprint of the
survivors. -/
theorem build_reference_fingerprint_no_recheck_witness :
    15 ≤ (glob mixedFolder).length ∧
    (glob mixedFolder).filterMap extractFromFile ≠ [] ∧
    ((glob mixedFolder).filterMap extractFromFile).length < 15 ∧
    (build_reference_fingerprint mixedFolder).2 =
      .ok (fingerprintOf ((glob mixedFolder).filterMap extractFromFile)) := by
  have hlen : 15 ≤ (glob mixedFolder).length := by
    decide
  have hcount : ((glob mixedFolder).filterMap extractFromFile).length = 1 := by
    decide
  have hsome : (glob mixedFolder).filterMap extractFromFile ≠ [] := by
    intro h
    rw [h] at hcount
    simp at hcount
  have hfew : ((glob mixedFolder).filterMap extractFromFile).length < 15 := by
    omega
  exact ⟨hlen, hsome, hfew,
    build_reference_fingerprint_no_recheck mixedFolder hlen hsome hfew⟩

/-- C7.  When the globbed reference set passes validation, the emitted
trace is exactly the chain-of-custody hash records of every member followed
by the per-file extraction notices: every hash record is present and all of
them are emitted before any residual extraction begins. -/
theorem hash_records_before_pixel_work (folder : List RefFile)
    (hlen : 15 ≤ (glob folder).length) :
    (build_reference_fingerprint folder).1 =
      (glob folder).map hashEventOf ++ (glob folder).map loopEvent ∧
    ∀ f ∈ glob folder, hashEventOf f ∈ (build_reference_fingerprint folder).1 := by
  have htrace : (build_reference_fingerprint folder).1 =
      (glob folder).map hashEventOf ++ (glob folder).map loopEvent := by
    simp only [build_reference_fingerprint]
    rw [validate_references_glob folder hlen]
    by_cases hres : ((glob folder).filterMap extractFromFile).isEmpty
    · simp [hres]
    · simp [hres]
  refine ⟨htrace, fun f hf => ?_⟩
  rw [htrace]
  exact List.mem_append_left _ (List.mem_map_of_mem _ hf)

/-- C7, witness: the trace shape at the concrete folder `allFailFolder`. -/
theorem hash_records_before_pixel_work_witness :
    15 ≤ (glob allFailFolder).length ∧
    (build_reference_fingerprint allFailFolder).1 =
      (glob allFailFolder).map hashEventOf ++ (glob allFailFolder).map loopEvent :=
  ⟨by decide, (hash_records_before_pixel_work allFailFolder (by decide)).1⟩

/-- C5.  The strict validator rejects every set of at most 14 files with
the size-specific error and never raises that error on a 15-file set; the
lenient variant's boundary sits at 10; and each variant implements the
spec's single validator parameterized by the configured minimum
(`⟨15, true, true⟩` for the strict no-camera variant, `⟨10, false, false⟩`
for the camera-available variant). -/
theorem min_count_rule (fs14 fs15 folder9 folder10 : List RefFile)
    (h14 : fs14.length ≤ 14) (h15 : fs15.length = 15)
    (h9 : (glob folder9).length = 9) (h10 : (glob folder10).length = 10) :
    validate_references fs14 = .error .insufficientRefs15 ∧
    validate_references fs15 ≠ .error .insufficientRefs15 ∧
    build_fingerprint folder9 = ([], .error .insufficientRefs10) ∧
    (build_fingerprint folder10).2 ≠ .error .insufficientRefs10 ∧
    (∀ fs, strictOutcome (validate_references fs) = specValidator ⟨15, true, true⟩ fs) ∧
    (∀ folder, specValidator ⟨10, false, false⟩ (glob folder) = .tooSmall ↔
      (build_fingerprint folder).2 = .error .insufficientRefs10) := by
  refine ⟨validate_references_small fs14 (by omega), ?_, ?_, ?_, ?_, ?_⟩
  · unfold validate_references
    rw [if_neg (by omega)]
    rcases hfind : fs15.find? (fun f => !isCR2ci f.path) with _ | f <;> simp [hfind]
  · simp only [build_fingerprint]
    rw [if_pos (show (glob folder9).length < 10 by omega)]
  · simp only [build_fingerprint]
    rw [if_neg (by omega)]
    by_cases hres : ((glob folder10).filterMap extractFromFile).isEmpty
    · simp [hres]
    · simp [hres]
  · intro fs
    unfold validate_references specValidator
    by_cases hl : fs.length < 15
    · simp [hl, strictOutcome]
    · rcases hfind : fs.find? (fun f => !isCR2ci f.path) with _ | f <;>
        simp [hl, hfind, strictOutcome]
  · intro folder
    simp only [build_fingerprint, specValidator]
    by_cases hl : (glob folder).length < 10
    · simp [hl]
    · by_cases hres : ((glob folder).filterMap extractFromFile).isEmpty <;>
        simp [hl, hres]

/-- C5, witness: the boundaries at concrete sets of dead files. -/
theorem min_count_rule_witness :
    (List.replicate 14 deadFile).length ≤ 14 ∧
    (glob (List.replicate 9 deadFile)).length = 9 ∧
    validate_references (List.replicate 14 deadFile) = .error .insufficientRefs15 ∧
    validate_references (List.replicate 15 deadFile) ≠ .error .insufficientRefs15 ∧
    build_fingerprint (List.replicate 9 deadFile) = ([], .error .insufficientRefs10) ∧
    (build_fingerprint (List.replicate 10 deadFile)).2 ≠ .error .insufficientRefs10 := by
  have h := min_count_rule (List.replicate 14 deadFile) (List.replicate 15 deadFile)
    (List.replicate 9 deadFile) (List.replicate 10 deadFile)
    (by decide) (by decide) (by decide) (by decide)
  exact ⟨by decide, by decide, h.1, h.2.1, h.2.2.1, h.2.2.2.1⟩

/-- A non-RAW file renamed into the candidate set. -/
def badFile : RefFile := ⟨['f', 'a', 'k', 'e', '.', 'j', 'p', 'g'], "99ff", none⟩

/-- A reference file with a mixed-case `.Cr2` extension. -/
def mixedCaseFile : RefFile := ⟨['b', '.', 'C', 'r', '2'], "77aa", none⟩

/-- C6, counterexample: a candidate set containing a file whose extension
does not match `.cr2` case-insensitively on which strict validation fails
with the *size* error, not an extension-specific error — the extension rule
runs only after the size rule. -/
theorem extension_rule_counterexample :
    isCR2ci badFile.path = false ∧
    validate_references [badFile] = .error .insufficientRefs15 ∧
    validate_references [badFile] ≠ .error (.invalidExtension badFile.path) := by
  refine ⟨by decide, rfl, fun h => ?_⟩
  rw [show validate_references [badFile] = .error .insufficientRefs15 from rfl] at h
  simp at h

/-- C6 as amended.  For every candidate set *passing the size rule*, one
mismatching extension fails the entire set with an extension-specific
error, and a set in which every extension matches case-insensitively
(mixed-case variants included) passes the extension rule and is
admitted. -/
theorem extension_rule (fs : List RefFile) (hlen : 15 ≤ fs.length) :
    ((∃ f ∈ fs, isCR2ci f.path = false) →
      ∃ p, validate_references fs = .error (.invalidExtension p)) ∧
    ((∀ f ∈ fs, isCR2ci f.path = true) →
      validate_references fs = .ok (fs.map hashEventOf)) := by
  constructor
  · rintro ⟨f, hf, hbad⟩
    have hs : (fs.find? fun f => !isCR2ci f.path).isSome := by
      rw [List.find?_isSome]
      exact ⟨f, hf, by simp [hbad]⟩
    obtain ⟨g, hg⟩ := Option.isSome_iff_exists.mp hs
    refine ⟨g.path, ?_⟩
    unfold validate_references
    rw [if_neg (by omega), hg]
  · intro hall
    have hnone : (fs.find? fun f => !isCR2ci f.path) = none := by
      rw [List.find?_eq_none]
      intro x hx
      simp [hall x hx]
    unfold validate_references
    rw [if_neg (by omega), hnone]

/-- C6, witness: a 15-file set with one `fake.jpg` member fails with an
extension-specific error; a 15-file set whose members all match
case-insensitively (a mixed-case `.Cr2` included) is admitted. -/
theorem extension_rule_witness :
    (∃ p, validate_references (badFile :: List.replicate 14 deadFile) =
      .error (.invalidExtension p)) ∧
    validate_references (mixedCaseFile :: List.replicate 14 deadFile) =
      .ok ((mixedCaseFile :: List.replicate 14 deadFile).map hashEventOf) := by
  constructor
  · exact (extension_rule _ (by decide)).1 ⟨badFile, List.mem_cons_self _ _, by decide⟩
  · exact (extension_rule _ (by decide)).2 (by decide)

/-- The elementwise products of two equal-shaped grids sum to the same
value in either order. -/
theorem sumMul_comm (a b : Grid) (hh : a.h = b.h) (hw : a.w = b.w) :
    sumMul b a = sumMul a b := by
  unfold sumMul
  rw [← hh, ← hw]
  exact Finset.sum_congr rfl fun i _ => Finset.sum_congr rfl fun j _ => mul_comm _ _

/-- C8.  The normalized cross-correlation score is symmetric: for two
equal-shaped grids with nonzero sums of squares, swapping the operands
yields the same score. -/
theorem ncc_symm (a b : Grid) (hh : a.h = b.h) (hw : a.w = b.w)
    (_ha : sumSq a ≠ 0) (_hb : sumSq b ≠ 0) :
    ncc b a = ncc a b := by
  unfold ncc
  rw [sumMul_comm a b hh hw, mul_comm (Real.sqrt (sumSq b)) (Real.sqrt (sumSq a))]

/-- A concrete 1×1 grid holding 2. -/
noncomputable def gA : Grid := ⟨1, 1, fun _ _ => 2⟩

/-- A concrete 1×1 grid holding 3. -/
noncomputable def gB : Grid := ⟨1, 1, fun _ _ => 3⟩

/-- C8, witness: symmetry at two concrete equal-shaped grids with nonzero
sums of squares. -/
theorem ncc_symm_witness :
    sumSq gA ≠ 0 ∧ sumSq gB ≠ 0 ∧ ncc gB gA = ncc gA gB := by
  have ha : sumSq gA ≠ 0 := by
    simp [sumSq, gA]
  have hb : sumSq gB ≠ 0 := by
    simp [sumSq, gB]
  exact ⟨ha, hb, ncc_symm gA gB rfl rfl ha hb⟩

/-- C10.  When the test residual is strictly smaller than the fingerprint
in either dimension and no dimension involved is 1, the top-left crop is
still strictly smaller than the fingerprint, the shapes cannot be
broadcast, and `compare_to_fingerprint` raises the unhandled shape-mismatch
error instead of returning a score. -/
theorem compare_to_fingerprint_shape_mismatch (t fp : Grid)
    (hsmall : t.h < fp.h ∨ t.w < fp.w)
    (ht1 : t.h ≠ 1) (ht2 : t.w ≠ 1) (hf1 : fp.h ≠ 1) (hf2 : fp.w ≠ 1) :
    compare_to_fingerprint t fp = .error "operands could not be broadcast together" := by
  have hno : ¬ broadcastOK (t.crop fp.h fp.w) fp := by
    simp only [broadcastOK, Grid.crop]
    omega
  simp only [compare_to_fingerprint]
  rw [if_neg hno]

/-- A 2×2 test grid. -/
noncomputable def tW : Grid := ⟨2, 2, fun _ _ => 0⟩

/-- A 3×3 fingerprint grid. -/
noncomputable def fpW : Grid := ⟨3, 3, fun _ _ => 0⟩

/-- C10, witness: a 2×2 test residual against a 3×3 fingerprint fails with
the shape-mismatch error. -/
theorem compare_to_fingerprint_shape_mismatch_witness :
    (tW.h < fpW.h ∨ tW.w < fpW.w) ∧
    compare_to_fingerprint tW fpW = .error "operands could not be broadcast together" :=
  ⟨Or.inl (by decide),
    compare_to_fingerprint_shape_mismatch tW fpW (Or.inl (by decide))
      (by decide) (by decide) (by decide) (by decide)⟩

end PRNU
